import Mathlib

/-!
Shallow embedding of the keephy_notifications service core:
the notification-rule condition evaluator, time-window gate, trigger loop
(`POST /api/notifications/trigger` handler), notification state-machine
methods, and rule statistics update.

Modelling conventions:
- JavaScript/JSON values are the inductive `JsVal`; JS numbers are modelled
  as `Option Int` where `none` plays the role of NaN (all numeric literals
  exercised by this service are integers; IEEE-754 fractional behaviour is
  outside the claims).
- `Option` models `null`/`undefined` fields; timestamps are `Int`
  milliseconds; minutes-since-midnight values are `Int`.
- Persistence (`save()`, Mongo queries) and real-time clock reads are outside
  the embedding: functions take the relevant clock readings as arguments.
-/

namespace Keephy

/-- A JavaScript/JSON value as it flows through the rule engine: trigger
payloads, condition values, nested payload fields. `num none` is NaN. -/
inductive JsVal where
  | null : JsVal
  | bool : Bool → JsVal
  | num : Option Int → JsVal
  | str : String → JsVal
  | arr : List JsVal → JsVal
  | obj : List (String × JsVal) → JsVal
deriving Repr

/-- JavaScript truthiness: null, false, 0, NaN and the empty string are
falsy; every object and array is truthy. -/
def truthy : JsVal → Bool
  | JsVal.null => false
  | JsVal.bool b => b
  | JsVal.num none => false
  | JsVal.num (some i) => i != 0
  | JsVal.str s => s != ""
  | JsVal.arr _ => true
  | JsVal.obj _ => true

/-- Lookup of a field in an object's field list (objects built from JSON
carry at most one binding per key). -/
def lookupField : List (String × JsVal) → String → Option JsVal
  | [], _ => none
  | (k, v) :: rest, key => if k = key then some v else lookupField rest key

/-- Numeric value of a decimal digit character. -/
def digitVal (c : Char) : Option Nat :=
  if c.isDigit then some (c.toNat - 48) else none

/-- Accumulating decimal parser over characters; fails on a non-digit. -/
def parseDigitsAux : List Char → Nat → Option Nat
  | [], acc => some acc
  | c :: cs, acc =>
    match digitVal c with
    | some d => parseDigitsAux cs (acc * 10 + d)
    | none => none

/-- Parse a non-empty all-digit character list as a natural number. -/
def parseDigits : List Char → Option Nat
  | [] => none
  | cs => parseDigitsAux cs 0

/-- Canonical array-index form of a property key, as in ECMAScript: digits
with no leading zero (except the single digit 0). `arr["01"]` is undefined. -/
def canonicalIndex (s : String) : Option Nat :=
  match s.data with
  | [] => none
  | ['0'] => some 0
  | '0' :: _ => none
  | cs => parseDigits cs

/-- JS member access `container[key]` for the data values reachable from a
JSON payload: object fields; array elements and `length`; string characters
and `length`. Primitive receivers (null, booleans, numbers) have no data
properties, and inherited methods are outside the data model. -/
def jsMember : JsVal → String → Option JsVal
  | JsVal.obj fs, key => lookupField fs key
  | JsVal.arr xs, key =>
    if key = "length" then some (JsVal.num (some (xs.length : Int)))
    else
      match canonicalIndex key with
      | some i => xs.get? i
      | none => none
  | JsVal.str s, key =>
    if key = "length" then some (JsVal.num (some (s.length : Int)))
    else
      match canonicalIndex key with
      | some i => (s.data.get? i).map (fun c => JsVal.str (String.mk [c]))
      | none => none
  | _, _ => none

/-- Split a character list at every occurrence of a separator, as
`String.prototype.split` does: an empty input yields one empty piece. -/
def splitOnChar (sep : Char) : List Char → List (List Char)
  | [] => [[]]
  | c :: cs =>
    let r := splitOnChar sep cs
    if c = sep then [] :: r
    else
      match r with
      | [] => [[c]]
      | h :: t => (c :: h) :: t

/-- Dot-path segmentation of a field string, `path.split('.')`. -/
def splitPath (path : String) : List String :=
  (splitOnChar '.' path.data).map String.mk

/-- One step of `getNestedValue`'s reduce:
`current && current[key] !== undefined ? current[key] : null`. -/
def getNestedStep (current : JsVal) (key : String) : JsVal :=
  if truthy current then
    match jsMember current key with
    | some v => v
    | none => JsVal.null
  else JsVal.null

/-- `getNestedValue(obj, path)` from NotificationRule: fold the dot-path over
the payload, stepping to null on a falsy container or undefined member. -/
def getNestedValue (data : JsVal) (path : String) : JsVal :=
  (splitPath path).foldl getNestedStep data

mutual

/-- ECMAScript `String(v)` restricted to the data values of this service:
null prints "null", NaN prints "NaN", arrays join their elements with commas
(null elements print empty), objects print "[object Object]". -/
def jsToString : JsVal → String
  | JsVal.null => "null"
  | JsVal.bool b => if b then "true" else "false"
  | JsVal.num none => "NaN"
  | JsVal.num (some i) => toString i
  | JsVal.str s => s
  | JsVal.arr xs => jsArrToString xs
  | JsVal.obj _ => "[object Object]"

/-- Comma join of array elements as `Array.prototype.toString`, with null
elements contributing the empty string. -/
def jsArrToString : List JsVal → String
  | [] => ""
  | [JsVal.null] => ""
  | [v] => jsToString v
  | JsVal.null :: vs => "," ++ jsArrToString vs
  | v :: vs => jsToString v ++ "," ++ jsArrToString vs

end

/-- Whitespace recognized when trimming a string for numeric coercion. -/
def isWs (c : Char) : Bool :=
  c = ' ' || c = '\t' || c = '\n' || c = '\r'

/-- Trim leading and trailing whitespace from a character list. -/
def trimWs (cs : List Char) : List Char :=
  ((cs.dropWhile isWs).reverse.dropWhile isWs).reverse

/-- ECMAScript `Number(string)` on the decimal-integer fragment: trimmed
empty string is 0; an optional sign followed by digits is its value; any
other string (non-numeric text, and the fractional/exponent/hex/Infinity
literal forms never produced by this service's rules) is NaN. -/
def jsStrToNumber (s : String) : Option Int :=
  match trimWs s.data with
  | [] => some 0
  | '-' :: rest => (parseDigits rest).map (fun n => -(n : Int))
  | '+' :: rest => (parseDigits rest).map (fun n => (n : Int))
  | cs => (parseDigits cs).map (fun n => (n : Int))

/-- ECMAScript `Number(v)`: null is 0, booleans are 0/1, strings parse per
`jsStrToNumber`, arrays coerce through their string form, plain objects are
NaN. -/
def toNumber : JsVal → Option Int
  | JsVal.null => some 0
  | JsVal.bool b => some (if b then 1 else 0)
  | JsVal.num n => n
  | JsVal.str s => jsStrToNumber s
  | JsVal.arr xs => jsStrToNumber (jsArrToString xs)
  | JsVal.obj _ => none

/-- JS `<` on numbers: any comparison involving NaN is false. -/
def jsLt (a b : Option Int) : Bool :=
  match a, b with
  | some x, some y => decide (x < y)
  | _, _ => false

/-- JS `>` on numbers: any comparison involving NaN is false. -/
def jsGt (a b : Option Int) : Bool :=
  match a, b with
  | some x, some y => decide (y < x)
  | _, _ => false

/-- JS `<=` on numbers: any comparison involving NaN is false. -/
def jsLe (a b : Option Int) : Bool :=
  match a, b with
  | some x, some y => decide (x ≤ y)
  | _, _ => false

/-- Strict equality `===` on the values compared by the evaluator. A payload
field value and a rule's condition value are distinct heap objects, so
arrays/objects are never reference-equal here; NaN is not equal to itself. -/
def strictEq : JsVal → JsVal → Bool
  | JsVal.null, JsVal.null => true
  | JsVal.bool a, JsVal.bool b => a == b
  | JsVal.num (some a), JsVal.num (some b) => a == b
  | JsVal.str a, JsVal.str b => a == b
  | _, _ => false

/-- SameValueZero, the equality used by `Array.prototype.includes`: like
`===` but NaN matches NaN. Arrays/objects compare by reference and the
compared values come from distinct documents, hence false. -/
def sameValueZero : JsVal → JsVal → Bool
  | JsVal.null, JsVal.null => true
  | JsVal.bool a, JsVal.bool b => a == b
  | JsVal.num none, JsVal.num none => true
  | JsVal.num (some a), JsVal.num (some b) => a == b
  | JsVal.str a, JsVal.str b => a == b
  | _, _ => false

/-- Decide whether `needle` starts `hay`. -/
def charsPrefixOf : List Char → List Char → Bool
  | [], _ => true
  | _ :: _, [] => false
  | a :: as, b :: bs => a == b && charsPrefixOf as bs

/-- Decide whether `needle` occurs contiguously inside `hay`. -/
def charsIncludes (needle : List Char) : List Char → Bool
  | [] => needle.isEmpty
  | hay@(_ :: rest) => charsPrefixOf needle hay || charsIncludes needle rest

/-- `String.prototype.includes` as a substring test. -/
def strIncludes (hay needle : String) : Bool :=
  charsIncludes needle.data hay.data

/-- ASCII `toLowerCase` (the fragment exercised by this service's rules). -/
def jsToLower (s : String) : String :=
  String.mk (s.data.map Char.toLower)

/-- A condition of a notification rule: dot-path field, operator name, and
comparison value (schema type Mixed). -/
structure Condition where
  field : String
  operator : String
  value : JsVal

/-- One arm of `evaluateConditions`'s switch: resolve the condition's field
in the payload and apply its operator; an unknown operator is false. -/
def evalCondition (data : JsVal) (c : Condition) : Bool :=
  let fieldValue := getNestedValue data c.field
  match c.operator with
  | "equals" => strictEq fieldValue c.value
  | "not_equals" => !strictEq fieldValue c.value
  | "greater_than" => jsGt (toNumber fieldValue) (toNumber c.value)
  | "less_than" => jsLt (toNumber fieldValue) (toNumber c.value)
  | "contains" =>
    strIncludes (jsToLower (jsToString fieldValue)) (jsToLower (jsToString c.value))
  | "not_contains" =>
    !strIncludes (jsToLower (jsToString fieldValue)) (jsToLower (jsToString c.value))
  | "in" =>
    match c.value with
    | JsVal.arr xs => xs.any (fun x => sameValueZero x fieldValue)
    | _ => false
  | "not_in" =>
    match c.value with
    | JsVal.arr xs => !xs.any (fun x => sameValueZero x fieldValue)
    | _ => false
  | _ => false

/-- `evaluateConditions(data)` from NotificationRule: every condition must
hold (an empty list holds vacuously). -/
def evaluateConditions (conditions : List Condition) (data : JsVal) : Bool :=
  conditions.all (evalCondition data)

/-- Time window of a rule's settings: optional "HH:MM" start and end strings
plus a timezone name. `none` models an unset (undefined) field. -/
structure TimeWindow where
  start : Option String
  end_ : Option String
  timezone : String

/-- `parseTime(timeString)` from NotificationRule: split at the colon, take
hours and minutes through `Number`, and return hours*60+minutes; `none` is
the NaN outcome (missing minutes part or non-numeric text). -/
def parseTime (t : String) : Option Int :=
  match ((splitOnChar ':' t.data).map String.mk).map jsStrToNumber with
  | [_] => none
  | some h :: some m :: _ => some (h * 60 + m)
  | _ => none

/-- `isInTimeWindow()` from NotificationRule, with the current
minutes-since-midnight in the rule's timezone passed in (the source reads it
from the clock via `toLocaleString`). A missing or empty start or end string
is falsy, so the gate passes; otherwise compare against the parsed window,
with the OR form handling windows that span midnight. -/
def isInTimeWindow (tw : TimeWindow) (currentTime : Int) : Bool :=
  match tw.start, tw.end_ with
  | some s, some e =>
    if s = "" || e = "" then true
    else
      let startTime := parseTime s
      let endTime := parseTime e
      if jsLe startTime endTime then
        jsLe startTime (some currentTime) && jsLe (some currentTime) endTime
      else
        jsLe startTime (some currentTime) || jsLe (some currentTime) endTime
  | _, _ => true

/-- Settings subdocument of a notification rule. -/
structure RuleSettings where
  isActive : Bool
  priority : Int
  cooldown : Int
  timeWindow : TimeWindow
  frequency : String

/-- Statistics subdocument of a notification rule; timestamps are epoch
milliseconds. -/
structure RuleStatistics where
  totalTriggered : Int
  totalSent : Int
  totalFailed : Int
  lastTriggered : Option Int

/-- A recipient entry of an action. -/
structure ActionRecipient where
  type : String
  value : String

/-- Settings subdocument of an action. -/
structure ActionSettings where
  priority : String
  delay : Int
  retryAttempts : Int
  retryDelay : Int

/-- An action of a notification rule. -/
structure Action where
  type : String
  template : String
  recipients : List ActionRecipient
  settings : ActionSettings

/-- A notification rule document. -/
structure NotificationRule where
  id : String
  businessId : String
  franchiseId : Option String
  eventType : String
  conditions : List Condition
  actions : List Action
  settings : RuleSettings
  statistics : RuleStatistics

/-- Cooldown arm of `shouldTrigger`: with a positive cooldown and a recorded
last trigger (a Date object, hence truthy), block when the elapsed
milliseconds fall short of the cooldown converted to milliseconds. -/
def cooldownBlocked (r : NotificationRule) (nowMs : Int) : Bool :=
  match r.statistics.lastTriggered with
  | some lt =>
    decide (0 < r.settings.cooldown) &&
      decide (nowMs - lt < r.settings.cooldown * 60 * 1000)
  | none => false

/-- `shouldTrigger(data)` from NotificationRule: active flag, time window and
cooldown must pass, then the conditions are evaluated against the payload. -/
def shouldTrigger (r : NotificationRule) (data : JsVal) (currentTime nowMs : Int) : Bool :=
  r.settings.isActive &&
    isInTimeWindow r.settings.timeWindow currentTime &&
    !cooldownBlocked r nowMs &&
    evaluateConditions r.conditions data

/-- `updateStatistics(success)` from NotificationRule: always bump
totalTriggered and stamp lastTriggered; bump totalSent on success and
totalFailed otherwise. -/
def updateStatistics (r : NotificationRule) (success : Bool) (nowMs : Int) : NotificationRule :=
  { r with
    statistics :=
      { totalTriggered := r.statistics.totalTriggered + 1
        lastTriggered := some nowMs
        totalSent :=
          if success then r.statistics.totalSent + 1 else r.statistics.totalSent
        totalFailed :=
          if success then r.statistics.totalFailed else r.statistics.totalFailed + 1 } }

/-- A per-recipient delivery record of a notification. -/
structure RecipientStatus where
  type : String
  value : String
  status : String
  sentAt : Option Int
  error : Option String
  retryCount : Int

/-- Content subdocument of a notification. -/
structure NotificationContent where
  subject : String
  body : String
  template : String
  vars : JsVal
-- the `vars` field models the schema field `variables`, whose source name is
-- a reserved command token in Lean

/-- A notification document. -/
structure Notification where
  ruleId : String
  businessId : String
  franchiseId : Option String
  eventType : String
  triggerData : JsVal
  recipients : List RecipientStatus
  content : NotificationContent
  status : String
  priority : String
  scheduledFor : Int
  sentAt : Option Int
  failedAt : Option Int
  error : Option String
  retryCount : Int
  maxRetries : Int

/-- `markAsSent()` from Notification: stamp the notification sent and move
every still-pending recipient to sent with its own sentAt. -/
def markAsSent (n : Notification) (nowMs : Int) : Notification :=
  { n with
    status := "sent"
    sentAt := some nowMs
    recipients :=
      n.recipients.map (fun r =>
        if r.status = "pending" then { r with status := "sent", sentAt := some nowMs }
        else r) }

/-- `markAsFailed(error)` from Notification: stamp the notification failed
and move every still-pending recipient to failed with the error recorded. -/
def markAsFailed (n : Notification) (nowMs : Int) (err : String) : Notification :=
  { n with
    status := "failed"
    failedAt := some nowMs
    error := some err
    recipients :=
      n.recipients.map (fun r =>
        if r.status = "pending" then { r with status := "failed", error := some err }
        else r) }

/-- `incrementRetry()` from Notification: bump the notification's retryCount
and the retryCount of every recipient currently failed. -/
def incrementRetry (n : Notification) : Notification :=
  { n with
    retryCount := n.retryCount + 1
    recipients :=
      n.recipients.map (fun r =>
        if r.status = "failed" then { r with retryCount := r.retryCount + 1 }
        else r) }

/-- `canRetry()` from Notification. -/
def canRetry (n : Notification) : Bool :=
  decide (n.retryCount < n.maxRetries) && n.status = "failed"

/-- `getSuccessRate()` from Notification: percentage of recipients whose
status is sent or delivered, 0 when there are no recipients. -/
def getSuccessRate (n : Notification) : ℚ :=
  let totalRecipients := n.recipients.length
  if totalRecipients = 0 then 0
  else
    let successfulRecipients :=
      (n.recipients.filter (fun r => r.status = "sent" || r.status = "delivered")).length
    ((successfulRecipients : ℚ) / (totalRecipients : ℚ)) * 100

/-- JS `x || d` for an optionally absent string: undefined and the empty
string fall back to the default. -/
def jsOrStr (o : Option String) (d : String) : String :=
  match o with
  | some s => if s = "" then d else s
  | none => d

/-- JS `x || d` for an optionally absent number: undefined and 0 fall back
to the default. -/
def jsOrInt (o : Option Int) (d : Int) : Int :=
  match o with
  | some v => if v = 0 then d else v
  | none => d

/-- Recipient entry seeded by the trigger handler: type/value copied,
status pending; sentAt, error and retryCount take schema defaults. -/
def seedRecipient (rc : ActionRecipient) : RecipientStatus :=
  { type := rc.type
    value := rc.value
    status := "pending"
    sentAt := none
    error := none
    retryCount := 0 }

/-- Notification constructed by the trigger handler for one firing rule:
recipients flat-mapped over ALL of the rule's actions, content, priority and
scheduling delay drawn from the FIRST action (with literal defaults when the
rule has no action or the field is falsy), status and counters from schema
defaults. -/
def buildNotification (r : NotificationRule) (data : JsVal) (nowMs : Int) : Notification :=
  { ruleId := r.id
    businessId := r.businessId
    franchiseId := r.franchiseId
    eventType := r.eventType
    triggerData := data
    recipients := (r.actions.map (fun a => a.recipients.map seedRecipient)).flatten
    content :=
      { subject := jsOrStr (r.actions.head?.map (fun a => a.template)) "Notification"
        body := jsOrStr (r.actions.head?.map (fun a => a.template)) "You have a new notification"
        template := jsOrStr (r.actions.head?.map (fun a => a.template)) "default"
        vars := data }
    status := "pending"
    priority := jsOrStr (r.actions.head?.map (fun a => a.settings.priority)) "normal"
    scheduledFor := nowMs + jsOrInt (r.actions.head?.map (fun a => a.settings.delay)) 0 * 60000
    sentAt := none
    failedAt := none
    error := none
    retryCount := 0
    maxRetries := 3 }

/-- The loop of the `POST /api/notifications/trigger` handler over the
candidate rules: each rule that `shouldTrigger` accepts contributes one
notification and has its statistics updated with success=true; every other
rule is left untouched. Returns the pushed notifications and the rule list
after the statistics side effects. -/
def triggerNotifications (rules : List NotificationRule) (data : JsVal) (nowMs currentTime : Int) :
    List Notification × List NotificationRule :=
  match rules with
  | [] => ([], [])
  | r :: rest =>
    let tail := triggerNotifications rest data nowMs currentTime
    if shouldTrigger r data currentTime nowMs then
      (buildNotification r data nowMs :: tail.1, updateStatistics r true nowMs :: tail.2)
    else
      (tail.1, r :: tail.2)

/-- An array check, `Array.isArray`. -/
def isArray : JsVal → Bool
  | JsVal.arr _ => true
  | _ => false

/-- A mapping-like container in the sense of the spec's "successive mapping
lookups": an object. Arrays, strings and primitives are not mappings. -/
def mappingLike : JsVal → Bool
  | JsVal.obj _ => true
  | _ => false

/-- Trace predicate for claim C3 as stated: some step of the resolution
either starts from a non-mapping container or looks up an absent member. -/
def lookupsHitMissingOrNonMapping : JsVal → List String → Bool
  | _, [] => false
  | v, k :: ks =>
    if !mappingLike v || (jsMember v k).isNone then true
    else lookupsHitMissingOrNonMapping (getNestedStep v k) ks

/-- Trace predicate for the amended C3: some step of the resolution either
starts from a falsy container or looks up a member that is undefined under
JS member semantics. -/
def lookupsHitFalsyOrUndefined : JsVal → List String → Bool
  | _, [] => false
  | v, k :: ks =>
    if !truthy v || (jsMember v k).isNone then true
    else lookupsHitFalsyOrUndefined (getNestedStep v k) ks

/-- Claim C1 as stated: a firing rule contributes one notification per
action, so the handler returns as many notifications as the firing rules
have actions in total. -/
def claimOnePerAction : Prop :=
  ∀ (rules : List NotificationRule) (data : JsVal) (nowMs currentTime : Int),
    ((triggerNotifications rules data nowMs currentTime).1).length =
      ((rules.filter (fun r => shouldTrigger r data currentTime nowMs)).map
        (fun r => r.actions.length)).sum

/-- Claim C2 as stated: greater_than and less_than evaluate to false
whenever the resolved field value is non-numeric (coerces to NaN) or null,
for every condition value. -/
def claimNumericAgainstNullFalse : Prop :=
  ∀ (data : JsVal) (c : Condition),
    (c.operator = "greater_than" ∨ c.operator = "less_than") →
    (toNumber (getNestedValue data c.field) = none ∨
      getNestedValue data c.field = JsVal.null) →
    evalCondition data c = false

/-- Claim C3 as stated: whenever some segment is absent from its container
or the container is not mapping-like, the resolved value is null. -/
def claimNullOnMissingSegment : Prop :=
  ∀ (data : JsVal) (path : String),
    lookupsHitMissingOrNonMapping data (splitPath path) = true →
    getNestedValue data path = JsVal.null

/-- Claim C4 as stated: a null field value behaves as the empty string for
the substring operators, so contains with the literal text "null" misses a
missing field and not_contains holds there for every value with non-empty
string form. -/
def claimNullCoercesToEmpty : Prop :=
  ∀ (data : JsVal) (c : Condition),
    getNestedValue data c.field = JsVal.null →
    (c.operator = "contains" → c.value = JsVal.str "null" →
      evalCondition data c = false) ∧
    (c.operator = "not_contains" → jsToString c.value ≠ "" →
      evalCondition data c = true)

/-- Recipient record fixture. -/
def mkRecipient (ty v st : String) : RecipientStatus :=
  ⟨ty, v, st, none, none, 0⟩

/-- Notification fixture around a given recipient list. -/
def baseNotification (rs : List RecipientStatus) : Notification :=
  { ruleId := "rule-1"
    businessId := "biz-1"
    franchiseId := none
    eventType := "rating_low"
    triggerData := JsVal.obj []
    recipients := rs
    content := ⟨"subject", "body", "template", JsVal.obj []⟩
    status := "pending"
    priority := "normal"
    scheduledFor := 0
    sentAt := none
    failedAt := none
    error := none
    retryCount := 0
    maxRetries := 3 }

/-- Notification with recipients in states sent, failed, delivered. -/
def exThreeStatuses : Notification :=
  baseNotification
    [mkRecipient "email" "a@example.com" "sent",
     mkRecipient "email" "b@example.com" "failed",
     mkRecipient "email" "c@example.com" "delivered"]

/-- Notification with no recipients. -/
def exNoRecipients : Notification :=
  baseNotification []

/-- Notification whose recipients are all pending. -/
def exAllPending : Notification :=
  baseNotification
    [mkRecipient "email" "a@example.com" "pending",
     mkRecipient "email" "b@example.com" "pending"]

/-- Action fixture. -/
def mkAction (ty tpl : String) (rcs : List ActionRecipient) (pri : String) (delay : Int) : Action :=
  ⟨ty, tpl, rcs, ⟨pri, delay, 3, 5⟩⟩

/-- Rule settings with no gating: active, no window, no cooldown. -/
def openSettings : RuleSettings :=
  ⟨true, 0, 0, ⟨none, none, "UTC"⟩, "immediate"⟩

/-- An active rule with two actions and no conditions: the crucial input for
the per-action versus per-rule fan-out question. -/
def ruleTwoActions : NotificationRule :=
  { id := "rule-1"
    businessId := "B1"
    franchiseId := none
    eventType := "rating_low"
    conditions := []
    actions :=
      [mkAction "email" "tpl1" [⟨"email", "a@example.com"⟩] "high" 5,
       mkAction "sms" "tpl2" [⟨"phone", "123"⟩] "low" 0]
    settings := openSettings
    statistics := ⟨0, 0, 0, none⟩ }

/-- The same rule, deactivated. -/
def inactiveRule : NotificationRule :=
  { ruleTwoActions with settings := { openSettings with isActive := false } }


/-- NaN on the left of the JS greater-than comparison is always false. -/
theorem jsGt_none_left (b : Option Int) : jsGt none b = false := by
  cases b <;> rfl

/-- NaN on the left of the JS less-than comparison is always false. -/
theorem jsLt_none_left (b : Option Int) : jsLt none b = false := by
  cases b <;> rfl

/-- Claim C2 fails as stated: `Number(null)` is 0 rather than NaN, so a
greater_than condition with value -1 matches a payload whose field is
missing (resolved value null). -/
theorem greater_than_against_null_counterexample : ¬ claimNumericAgainstNullFalse := by
  intro h
  have h2 := h (JsVal.obj []) ⟨"x", "greater_than", JsVal.num (some (-1))⟩
    (Or.inl rfl) (Or.inr rfl)
  have h3 : evalCondition (JsVal.obj []) ⟨"x", "greater_than", JsVal.num (some (-1))⟩ = true := by
    decide
  rw [h3] at h2
  cases h2

/-- Claim C2, amended: for greater_than/less_than the condition is false
whenever the resolved field value's numeric coercion is NaN, and evaluation
is a total function (never throws); a resolved null however coerces to 0,
so the condition compares 0 against the condition value's coercion. -/
theorem numeric_ops_nan_false_null_as_zero (data : JsVal) (c : Condition)
    (hop : c.operator = "greater_than" ∨ c.operator = "less_than") :
    (toNumber (getNestedValue data c.field) = none → evalCondition data c = false) ∧
    (getNestedValue data c.field = JsVal.null →
      evalCondition data c =
        if c.operator = "greater_than" then jsGt (some 0) (toNumber c.value)
        else jsLt (some 0) (toNumber c.value)) := by
  obtain ⟨f, op, v⟩ := c
  rcases hop with hop | hop <;> subst hop <;> constructor <;> intro hf <;>
    simp_all [evalCondition, toNumber, jsGt_none_left, jsLt_none_left]

/-- Concrete instance of numeric_ops_nan_false_null_as_zero: greater_than
against a field holding non-numeric text is false. -/
theorem numeric_ops_nan_false_null_as_zero_witness :
    evalCondition (JsVal.obj [("r", JsVal.str "abc")])
      ⟨"r", "greater_than", JsVal.num (some 0)⟩ = false :=
  (numeric_ops_nan_false_null_as_zero (JsVal.obj [("r", JsVal.str "abc")])
    ⟨"r", "greater_than", JsVal.num (some 0)⟩ (Or.inl rfl)).1 (by decide)

/-- Claim C10: with a non-array condition value both in and not_in evaluate
to false, so not_in is not the logical negation of in on malformed values. -/
theorem in_notIn_nonarray_false (data : JsVal) (c : Condition)
    (hop : c.operator = "in" ∨ c.operator = "not_in")
    (hv : isArray c.value = false) :
    evalCondition data c = false := by
  obtain ⟨f, op, v⟩ := c
  rcases hop with hop | hop <;> subst hop <;> cases v <;>
    simp_all [evalCondition, isArray]

/-- Concrete instance of in_notIn_nonarray_false: a not_in condition whose
value is a scalar string does not match a payload with the field present. -/
theorem in_notIn_nonarray_false_witness :
    evalCondition (JsVal.obj [("x", JsVal.num (some 2))])
      ⟨"x", "not_in", JsVal.str "nope"⟩ = false :=
  in_notIn_nonarray_false (JsVal.obj [("x", JsVal.num (some 2))])
    ⟨"x", "not_in", JsVal.str "nope"⟩ (Or.inr rfl) rfl

/-- Claim C9: incrementRetry bumps the notification-level retryCount by
exactly one, leaves the notification status and stamps unchanged, rewrites
each recipient by bumping its retryCount exactly when its status is failed,
and returns every non-failed recipient entirely unchanged in place. -/
theorem incrementRetry_spec (n : Notification) :
    (incrementRetry n).retryCount = n.retryCount + 1 ∧
    (incrementRetry n).status = n.status ∧
    (incrementRetry n).sentAt = n.sentAt ∧
    (incrementRetry n).failedAt = n.failedAt ∧
    (incrementRetry n).maxRetries = n.maxRetries ∧
    (∀ i : Nat,
      (incrementRetry n).recipients[i]? =
        (n.recipients[i]?).map (fun r =>
          if r.status = "failed" then { r with retryCount := r.retryCount + 1 } else r)) ∧
    (∀ (i : Nat) (r : RecipientStatus),
      n.recipients[i]? = some r → r.status ≠ "failed" →
      (incrementRetry n).recipients[i]? = some r) := by
  refine ⟨rfl, rfl, rfl, rfl, rfl, ?_, ?_⟩
  · intro i
    simp [incrementRetry]
  · intro i r hr hs
    simp [incrementRetry, hr, hs]

/-- Concrete instance of incrementRetry_spec: the notification counter is
bumped while a recipient in state sent is returned unchanged. -/
theorem incrementRetry_spec_witness :
    (incrementRetry exThreeStatuses).retryCount = exThreeStatuses.retryCount + 1 ∧
    (incrementRetry exThreeStatuses).recipients[0]? =
      some (mkRecipient "email" "a@example.com" "sent") := by
  obtain ⟨h1, -, -, -, -, -, h7⟩ := incrementRetry_spec exThreeStatuses
  exact ⟨h1, h7 0 (mkRecipient "email" "a@example.com" "sent") rfl (by decide)⟩

/-- Claim C8: with both ends configured and start at most end the gate
passes exactly when start is at most the current minute which is at most
end; with start after end the window spans midnight and passes exactly when
the current minute reaches start or has not passed end; an unset bound
passes always; and for the 22:00-06:00 window, 23:30 and 02:00 are inside
while 12:00 is outside. -/
theorem isInTimeWindow_spec :
    (∀ (s e tz : String) (st en cur : Int),
      s ≠ "" → e ≠ "" → parseTime s = some st → parseTime e = some en →
      (st ≤ en →
        isInTimeWindow ⟨some s, some e, tz⟩ cur =
          (decide (st ≤ cur) && decide (cur ≤ en))) ∧
      (en < st →
        isInTimeWindow ⟨some s, some e, tz⟩ cur =
          (decide (st ≤ cur) || decide (cur ≤ en)))) ∧
    (∀ (tw : TimeWindow) (cur : Int), tw.start = none ∨ tw.end_ = none →
      isInTimeWindow tw cur = true) ∧
    isInTimeWindow ⟨some "22:00", some "06:00", "UTC"⟩ 1410 = true ∧
    isInTimeWindow ⟨some "22:00", some "06:00", "UTC"⟩ 120 = true ∧
    isInTimeWindow ⟨some "22:00", some "06:00", "UTC"⟩ 720 = false := by
  refine ⟨?_, ?_, by decide, by decide, by decide⟩
  · intro s e tz st en cur hs he hps hpe
    constructor <;> intro hord <;>
      simp [isInTimeWindow, hs, he, hps, hpe, jsLe, hord, not_le.mpr]
  · intro tw cur h
    obtain ⟨os, oe, tz⟩ := tw
    rcases h with h | h <;> subst h
    · rfl
    · cases os <;> rfl

/-- Concrete instance of isInTimeWindow_spec: a 09:00-17:00 window tested at
10:00 follows the start-before-end comparison form. -/
theorem isInTimeWindow_spec_witness :
    isInTimeWindow ⟨some "09:00", some "17:00", "UTC"⟩ 600 =
      (decide ((540 : Int) ≤ 600) && decide ((600 : Int) ≤ 1020)) :=
  (isInTimeWindow_spec.1 "09:00" "17:00" "UTC" 540 1020 600 (by decide) (by decide)
    (by decide) (by decide)).1 (by norm_num)


/-- A resolution step from the null container stays null. -/
theorem getNestedStep_null (k : String) : getNestedStep JsVal.null k = JsVal.null := rfl

/-- Null absorbs all remaining resolution steps. -/
theorem foldl_getNestedStep_null (ks : List String) :
    ks.foldl getNestedStep JsVal.null = JsVal.null := by
  induction ks with
  | nil => rfl
  | cons k ks ih => simpa [List.foldl_cons, getNestedStep_null] using ih

/-- A step whose container is falsy or whose member is undefined yields
null. -/
theorem getNestedStep_eq_null_of_bad (v : JsVal) (k : String)
    (h : (!truthy v || (jsMember v k).isNone) = true) :
    getNestedStep v k = JsVal.null := by
  have h' : truthy v = false ∨ jsMember v k = none := by
    simpa [Option.isNone_iff_eq_none] using h
  rcases h' with h1 | h2
  · simp [getNestedStep, h1]
  · cases ht : truthy v <;> simp [getNestedStep, ht, h2]

/-- Once the resolution trace hits a falsy container or an undefined
member, the whole fold resolves to null. -/
theorem foldl_null_of_badstep (ks : List String) (v : JsVal)
    (h : lookupsHitFalsyOrUndefined v ks = true) :
    ks.foldl getNestedStep v = JsVal.null := by
  induction ks generalizing v with
  | nil => exact absurd h (by simp [lookupsHitFalsyOrUndefined])
  | cons k ks ih =>
    rw [lookupsHitFalsyOrUndefined] at h
    by_cases hb : (!truthy v || (jsMember v k).isNone) = true
    · rw [List.foldl_cons, getNestedStep_eq_null_of_bad v k hb, foldl_getNestedStep_null]
    · rw [if_neg hb] at h
      rw [List.foldl_cons]
      exact ih (getNestedStep v k) h

/-- Claim C3 fails as stated: a string is not a mapping, yet resolving the
segment length against it returns the string's length; on the payload with
name "abc" the path name.length resolves to the number 3, not null. -/
theorem nested_nonmapping_counterexample : ¬ claimNullOnMissingSegment := by
  intro h
  have h2 := h (JsVal.obj [("name", JsVal.str "abc")]) "name.length" (by decide)
  have h3 : getNestedValue (JsVal.obj [("name", JsVal.str "abc")]) "name.length" =
      JsVal.num (some 3) := rfl
  rw [h3] at h2
  exact JsVal.noConfusion h2

/-- Claim C3, amended: resolution applies successive JS member lookups,
where objects expose fields and arrays and strings also expose their
elements and length; whenever some step starts from a falsy container or
looks up a member that is undefined under those semantics, the resolved
value is null (never another sentinel and never the container itself). -/
theorem nested_null_on_falsy_or_undefined (data : JsVal) (path : String)
    (h : lookupsHitFalsyOrUndefined data (splitPath path) = true) :
    getNestedValue data path = JsVal.null :=
  foldl_null_of_badstep (splitPath path) data h

/-- Concrete instance of nested_null_on_falsy_or_undefined: descending
below a numeric leaf resolves to null. -/
theorem nested_null_on_falsy_or_undefined_witness :
    getNestedValue (JsVal.obj [("a", JsVal.num (some 5))]) "a.b" = JsVal.null :=
  nested_null_on_falsy_or_undefined (JsVal.obj [("a", JsVal.num (some 5))]) "a.b" (by decide)

/-- Lowercasing of the text null is itself. -/
theorem jsToLower_null_str : jsToLower "null" = "null" := rfl

/-- Claim C4 fails as stated: String(null) is the text "null" rather than
the empty string, so a contains condition carrying the value "null" does
match a payload whose field is missing. -/
theorem contains_null_text_counterexample : ¬ claimNullCoercesToEmpty := by
  intro h
  have h2 := (h (JsVal.obj []) ⟨"x", "contains", JsVal.str "null"⟩ rfl).1 rfl rfl
  have h3 : evalCondition (JsVal.obj []) ⟨"x", "contains", JsVal.str "null"⟩ =
      strIncludes (jsToLower (jsToString (getNestedValue (JsVal.obj []) "x")))
        (jsToLower (jsToString (JsVal.str "null"))) := rfl
  rw [show getNestedValue (JsVal.obj []) "x" = JsVal.null from rfl] at h3
  simp only [jsToString, jsToLower_null_str] at h3
  rw [h3] at h2
  exact absurd h2 (by decide)

/-- Claim C4, amended: a null field value is coerced to the text "null"
before the lowercase-substring test, so contains holds exactly when the
lowercased condition text occurs inside "null" (in particular the value
"null" matches a missing field) and not_contains holds exactly otherwise. -/
theorem contains_null_text (data : JsVal) (c : Condition)
    (hf : getNestedValue data c.field = JsVal.null) :
    (c.operator = "contains" →
      evalCondition data c = strIncludes "null" (jsToLower (jsToString c.value))) ∧
    (c.operator = "not_contains" →
      evalCondition data c = !strIncludes "null" (jsToLower (jsToString c.value))) := by
  obtain ⟨f, op, v⟩ := c
  constructor <;> intro hop <;> subst hop
  · rw [show evalCondition data ⟨f, "contains", v⟩ =
        strIncludes (jsToLower (jsToString (getNestedValue data f)))
          (jsToLower (jsToString v)) from rfl, hf]
    simp only [jsToString, jsToLower_null_str]
  · rw [show evalCondition data ⟨f, "not_contains", v⟩ =
        !strIncludes (jsToLower (jsToString (getNestedValue data f)))
          (jsToLower (jsToString v)) from rfl, hf]
    simp only [jsToString, jsToLower_null_str]

/-- Concrete instance of contains_null_text: not_contains with value "zzz"
holds against a missing field. -/
theorem contains_null_text_witness :
    evalCondition (JsVal.obj []) ⟨"x", "not_contains", JsVal.str "zzz"⟩ = true := by
  have h := (contains_null_text (JsVal.obj []) ⟨"x", "not_contains", JsVal.str "zzz"⟩ rfl).2 rfl
  rw [h]
  simp only [jsToString]
  decide


/-- Claim C6: getSuccessRate is the percentage of recipients in state sent
or delivered among all recipients; on the [sent, failed, delivered] example
it is 200/3, whose two-decimal rounding is 66.67 percent, and with zero
recipients it is 0 rather than a division by zero. -/
theorem getSuccessRate_spec :
    (∀ n : Notification, n.recipients.length ≠ 0 →
      getSuccessRate n * (n.recipients.length : ℚ) =
        ((n.recipients.filter
          (fun r => r.status = "sent" || r.status = "delivered")).length : ℚ) * 100) ∧
    (∀ n : Notification, n.recipients.length = 0 → getSuccessRate n = 0) ∧
    getSuccessRate exThreeStatuses = 200 / 3 ∧
    round (getSuccessRate exThreeStatuses * 100) = (6667 : ℤ) ∧
    getSuccessRate exNoRecipients = 0 := by
  have h3 : getSuccessRate exThreeStatuses = 200 / 3 := by
    rw [show getSuccessRate exThreeStatuses = ((2 : ℕ) : ℚ) / ((3 : ℕ) : ℚ) * 100 from rfl]
    norm_num
  refine ⟨?_, ?_, h3, ?_, rfl⟩
  · intro n h
    have hq : ((n.recipients.length : ℚ)) ≠ 0 := Nat.cast_ne_zero.mpr h
    simp only [getSuccessRate, if_neg h]
    field_simp
  · intro n h
    simp [getSuccessRate, h]
  · rw [h3, round_eq]
    rw [show (200 : ℚ) / 3 * 100 + 1 / 2 = 40003 / 6 by norm_num]
    rw [Int.floor_eq_iff]
    constructor <;> norm_num

/-- Concrete instance of getSuccessRate_spec: the counting identity on the
three-recipient example and the zero-recipient fallback. -/
theorem getSuccessRate_spec_witness :
    getSuccessRate exThreeStatuses * (exThreeStatuses.recipients.length : ℚ) =
      ((exThreeStatuses.recipients.filter
        (fun r => r.status = "sent" || r.status = "delivered")).length : ℚ) * 100 ∧
    getSuccessRate exNoRecipients = 0 :=
  ⟨getSuccessRate_spec.1 exThreeStatuses (by decide),
   getSuccessRate_spec.2.1 exNoRecipients rfl⟩

/-- Claim C7: on a notification whose recipients are all pending,
markAsSent sets status sent and sentAt now, moves every recipient to sent
with its own sentAt (and in general rewrites only pending recipients,
leaving recipients in any other per-recipient state untouched), after which
getSuccessRate returns 100. -/
theorem markAsSent_roundtrip (n : Notification) (nowMs : Int)
    (hne : n.recipients ≠ [])
    (hall : ∀ r ∈ n.recipients, r.status = "pending") :
    (markAsSent n nowMs).status = "sent" ∧
    (markAsSent n nowMs).sentAt = some nowMs ∧
    (markAsSent n nowMs).recipients =
      n.recipients.map (fun r => { r with status := "sent", sentAt := some nowMs }) ∧
    (∀ m : Notification,
      (markAsSent m nowMs).recipients =
        m.recipients.map (fun r =>
          if r.status = "pending" then { r with status := "sent", sentAt := some nowMs }
          else r)) ∧
    getSuccessRate (markAsSent n nowMs) = 100 := by
  have hrec : (markAsSent n nowMs).recipients =
      n.recipients.map (fun r => { r with status := "sent", sentAt := some nowMs }) := by
    simp only [markAsSent]
    exact List.map_congr_left (fun r hr => by rw [if_pos (hall r hr)])
  refine ⟨rfl, rfl, hrec, fun m => rfl, ?_⟩
  have hlen : (markAsSent n nowMs).recipients.length = n.recipients.length := by
    rw [hrec, List.length_map]
  have hne' : (markAsSent n nowMs).recipients.length ≠ 0 := by
    rw [hlen]
    exact fun h0 => hne (List.length_eq_zero.mp h0)
  have hfil : (markAsSent n nowMs).recipients.filter
      (fun r => r.status = "sent" || r.status = "delivered") =
      (markAsSent n nowMs).recipients := by
    refine List.filter_eq_self.mpr ?_
    intro r hr
    rw [hrec] at hr
    obtain ⟨s, hs, rfl⟩ := List.mem_map.mp hr
    simp
  simp only [getSuccessRate, if_neg hne', hfil]
  rw [div_self (Nat.cast_ne_zero.mpr hne'), one_mul]

/-- Concrete instance of markAsSent_roundtrip: two pending recipients are
all sent afterwards and the success rate is 100. -/
theorem markAsSent_roundtrip_witness :
    getSuccessRate (markAsSent exAllPending 42) = 100 ∧
    (markAsSent exAllPending 42).status = "sent" := by
  have h := markAsSent_roundtrip exAllPending 42
    (by simp [exAllPending, baseNotification]) (by decide)
  exact ⟨h.2.2.2.2, h.1⟩

/-- Claim C1 fails as stated: the handler builds one notification per
firing RULE, not one per action; the active two-action rule fires and
yields a single notification where the claim demands two. -/
theorem trigger_one_per_action_counterexample : ¬ claimOnePerAction := by
  intro h
  have h2 := h [ruleTwoActions] (JsVal.obj []) 0 0
  have hl : ((triggerNotifications [ruleTwoActions] (JsVal.obj []) 0 0).1).length = 1 := rfl
  have hr : ((([ruleTwoActions].filter
      (fun r => shouldTrigger r (JsVal.obj []) 0 0)).map
      (fun r => r.actions.length)).sum) = 2 := rfl
  rw [hl, hr] at h2
  exact absurd h2 (by decide)

/-- Claim C1, amended: each firing rule yields exactly ONE notification
regardless of how many actions it has: the handler's output maps
buildNotification over the firing rules in order, so the notification count
equals the firing-rule count; a notification's recipients are the
concatenation over ALL of the rule's actions of that action's recipients,
each seeded with status pending and retryCount 0, while its content,
priority and scheduling delay are taken from the FIRST action only (with
literal defaults when absent). -/
theorem trigger_one_per_firing_rule (rules : List NotificationRule) (data : JsVal)
    (nowMs currentTime : Int) :
    (triggerNotifications rules data nowMs currentTime).1 =
      (rules.filter (fun r => shouldTrigger r data currentTime nowMs)).map
        (fun r => buildNotification r data nowMs) ∧
    ((triggerNotifications rules data nowMs currentTime).1).length =
      (rules.filter (fun r => shouldTrigger r data currentTime nowMs)).length ∧
    (∀ r : NotificationRule,
      (buildNotification r data nowMs).recipients =
        (r.actions.map (fun a => a.recipients.map seedRecipient)).flatten ∧
      (buildNotification r data nowMs).priority =
        jsOrStr (r.actions.head?.map (fun a => a.settings.priority)) "normal" ∧
      (buildNotification r data nowMs).scheduledFor =
        nowMs + jsOrInt (r.actions.head?.map (fun a => a.settings.delay)) 0 * 60000 ∧
      (buildNotification r data nowMs).content.subject =
        jsOrStr (r.actions.head?.map (fun a => a.template)) "Notification") ∧
    (∀ rc : ActionRecipient,
      (seedRecipient rc).status = "pending" ∧ (seedRecipient rc).retryCount = 0) := by
  have h1 : (triggerNotifications rules data nowMs currentTime).1 =
      (rules.filter (fun r => shouldTrigger r data currentTime nowMs)).map
        (fun r => buildNotification r data nowMs) := by
    induction rules with
    | nil => rfl
    | cons r rest ih =>
      cases hs : shouldTrigger r data currentTime nowMs <;>
        simp [triggerNotifications, hs, ih]
  exact ⟨h1, by rw [h1, List.length_map], fun r => ⟨rfl, rfl, rfl, rfl⟩,
    fun rc => ⟨rfl, rfl⟩⟩

/-- Claim C5: the statistics side effect runs exactly once per firing rule:
the rule list after the loop maps each firing rule through updateStatistics
with success true, which bumps totalTriggered and totalSent by one each,
leaves totalFailed unchanged and stamps lastTriggered, while every skipped
rule (in particular an inactive one, which never fires) is returned
entirely unchanged. -/
theorem trigger_statistics_spec (rules : List NotificationRule) (data : JsVal)
    (nowMs currentTime : Int) :
    (triggerNotifications rules data nowMs currentTime).2 =
      rules.map (fun r =>
        if shouldTrigger r data currentTime nowMs then updateStatistics r true nowMs
        else r) ∧
    (∀ r : NotificationRule,
      (updateStatistics r true nowMs).statistics.totalTriggered =
        r.statistics.totalTriggered + 1 ∧
      (updateStatistics r true nowMs).statistics.totalSent =
        r.statistics.totalSent + 1 ∧
      (updateStatistics r true nowMs).statistics.totalFailed =
        r.statistics.totalFailed ∧
      (updateStatistics r true nowMs).statistics.lastTriggered = some nowMs) ∧
    (∀ r : NotificationRule, r.settings.isActive = false →
      shouldTrigger r data currentTime nowMs = false) := by
  refine ⟨?_, fun r => ⟨rfl, rfl, rfl, rfl⟩, ?_⟩
  · induction rules with
    | nil => rfl
    | cons r rest ih =>
      cases hs : shouldTrigger r data currentTime nowMs <;>
        simp [triggerNotifications, hs, ih]
  · intro r h
    simp [shouldTrigger, h]

/-- Concrete instance of trigger_statistics_spec: a deactivated rule does
not fire and its statistics survive the trigger loop unchanged. -/
theorem trigger_statistics_spec_witness :
    shouldTrigger inactiveRule (JsVal.obj []) 0 0 = false ∧
    (triggerNotifications [inactiveRule] (JsVal.obj []) 0 0).2 = [inactiveRule] := by
  obtain ⟨h1, -, h3⟩ := trigger_statistics_spec [inactiveRule] (JsVal.obj []) 0 0
  refine ⟨h3 inactiveRule rfl, ?_⟩
  rw [h1]
  simp [h3 inactiveRule rfl]

end Keephy
